import Mathlib

/-!
Verification of the ChronoFlux generation client (`src/streamlit_app.py`).

The file shallowly embeds the two pieces of logic the repository contains:

* `call_flux_api` (lines 8-100 of the source): submit a generation request,
  poll the status endpoint up to 60 times with a 0.5-time-unit sleep before
  each poll, and resolve to a decoded image or an error string.
* the aspect-ratio to (width, height) derivation (lines 186-195), and the
  generate-button handler (lines 199-214).

The external world (the remote service and the image host) is modelled by an
`Env` record: the outcome of the submission call, the outcome of each poll
attempt, and the outcome of fetching a given image URL.  Python exception
texts (`str(e)`) are abstracted as strings; where the code builds a message
from a raised exception, the model uses a canonical text such as
"KeyError: samples" for the corresponding Python exception.  The traces of
observable effects (number of submit calls, poll calls, sleeps, and the list
of image URLs fetched) are threaded through the embedding so that claims
about call counts and elapsed wait time can be stated.
-/

/-- A decoded image, abstracted to its byte content (the model of the value
returned by `Image.open(io.BytesIO(...))`). -/
structure Image where
  bytes : List Nat
deriving DecidableEq

/-- The `result` object of a status response: an optional singular `sample`
URL and an optional `samples` list of URLs, matching the JSON shapes the
code probes at lines 75-78. -/
structure ResultPayload where
  sample : Option String
  samples : Option (List String)
deriving DecidableEq

/-- A decoded status-endpoint JSON body: the mandatory `status` string, the
optional `result` payload, and the optional `error` field used by the
`Failed` branch (line 87). -/
structure PollResponse where
  status : String
  result : Option ResultPayload
  error : Option String
deriving DecidableEq

/-- Outcome of one poll attempt: either the decoded JSON body, or a raised
exception (connection failure, undecodable body, missing `status` key),
which the outer generic handler of the source turns into an
"Unexpected error" result. -/
inductive PollOutcome where
  | exn (msg : String)
  | ok (p : PollResponse)
deriving DecidableEq

/-- The decoded JSON body of a successful (2xx) submission response: the
code only consults its optional `id` field (lines 56-59). -/
structure SubmitBody where
  id : Option String
deriving DecidableEq

/-- Outcome of the submission POST (lines 48-54).
`httpError detail raw` models a non-2xx response raised by
`raise_for_status`: `detail` is the printed JSON error body when
`e.response.json()` parses, `raw` is `str(e)`.
`exn` models any other raised exception (connection error, undecodable
2xx body). -/
inductive SubmitOutcome where
  | httpError (detail : Option String) (raw : String)
  | exn (msg : String)
  | ok (body : SubmitBody)
deriving DecidableEq

/-- Outcome of the plain GET against an image URL followed by
`raise_for_status` and `Image.open` (lines 81-83): an HTTP error raised by
`raise_for_status`, a decode failure raised by `Image.open`, or the decoded
image. -/
inductive FetchResult where
  | httpError (msg : String)
  | decodeFail (msg : String)
  | ok (img : Image)
deriving DecidableEq

/-- The external world one invocation of `call_flux_api` interacts with:
the submission outcome, the poll outcome of each attempt (0-based), and the
fetch outcome for each URL. -/
structure Env where
  submit : SubmitOutcome
  polls : Nat → PollOutcome
  fetch : String → FetchResult

/-- Trace of the observable effects of one invocation: number of submission
POSTs, number of poll GETs, number of 0.5-time-unit sleeps, and the image
URLs fetched, in order. -/
structure Trace where
  submits : Nat
  polls : Nat
  sleeps : Nat
  fetched : List String
deriving DecidableEq

/-- The pair the Python function returns (`(Image or None, error or None)`),
together with the effect trace. -/
structure ApiResult where
  image : Option Image
  error : Option String
  trace : Trace
deriving DecidableEq

/-- Printed form of an optional string, standing for Python's rendering of
a possibly-missing JSON field inside `str(result)`. -/
def optDump : Option String → String
  | none => "None"
  | some s => s

/-- Printed form of a `samples` list. -/
def listDump : List String → String
  | [] => ""
  | [s] => s
  | s :: rest => s ++ ", " ++ listDump rest

/-- Printed form of the `result` payload. -/
def payloadDump : Option ResultPayload → String
  | none => "None"
  | some rp =>
      "sample=" ++ optDump rp.sample ++ ", samples=" ++
        (match rp.samples with
         | none => "None"
         | some l => "[" ++ listDump l ++ "]")

/-- The model of `str(result)` at line 85: a dump of the full status
payload appended to the processing-error message. -/
def pollDump (p : PollResponse) : String :=
  "status=" ++ p.status ++ ", result=" ++ payloadDump p.result ++
    ", error=" ++ optDump p.error

/-- Lines 74-78: extract the image URL from the `Ready` payload — the
singular `sample` field first, else `samples[0]`.  A missing key or an
empty list raises; the raised exception text is returned as the error of
the `Except`. -/
def extractUrl (p : PollResponse) : Except String String :=
  match p.result with
  | none => Except.error "KeyError: result"
  | some rp =>
      match rp.sample with
      | some u => Except.ok u
      | none =>
          match rp.samples with
          | none => Except.error "KeyError: samples"
          | some [] => Except.error "IndexError: list index out of range"
          | some (u :: _) => Except.ok u

/-- Lines 72-85, the `Ready` branch: extract the URL, fetch it, decode it.
Every exception raised inside the branch — including the `HTTPError` from
the image fetch's `raise_for_status` — is caught by the inner handler at
line 84 and becomes the "Error processing API response" result carrying the
payload dump. -/
def processReady (env : Env) (p : PollResponse) (tr : Trace) : ApiResult :=
  match extractUrl p with
  | Except.error e =>
      ⟨none,
       some ("Error processing API response: " ++ e ++ "\nResponse: " ++ pollDump p),
       tr⟩
  | Except.ok url =>
      match env.fetch url with
      | FetchResult.httpError m =>
          ⟨none,
           some ("Error processing API response: " ++ m ++ "\nResponse: " ++ pollDump p),
           { tr with fetched := tr.fetched ++ [url] }⟩
      | FetchResult.decodeFail m =>
          ⟨none,
           some ("Error processing API response: " ++ m ++ "\nResponse: " ++ pollDump p),
           { tr with fetched := tr.fetched ++ [url] }⟩
      | FetchResult.ok img =>
          ⟨some img, none, { tr with fetched := tr.fetched ++ [url] }⟩

/-- Lines 63-91, the poll loop: up to `fuel` further attempts, each one a
0.5-time-unit sleep followed by a GET of the status endpoint; `attempt` is
the 0-based index of the next attempt.  `Ready` and `Failed` are terminal;
any other status continues; exhaustion yields the timeout error. -/
def pollLoop (env : Env) : Nat → Nat → Trace → ApiResult
  | 0, _, tr => ⟨none, some "Image generation timed out", tr⟩
  | Nat.succ fuel, attempt, tr =>
      let tr1 : Trace := { tr with sleeps := tr.sleeps + 1, polls := tr.polls + 1 }
      match env.polls attempt with
      | PollOutcome.exn m => ⟨none, some ("Unexpected error: " ++ m), tr1⟩
      | PollOutcome.ok p =>
          if p.status = "Ready" then processReady env p tr1
          else if p.status = "Failed" then
            ⟨none, some ("Generation failed: " ++ p.error.getD "Unknown error"), tr1⟩
          else pollLoop env fuel (attempt + 1) tr1

/-- Line 63: `max_attempts = 60`. -/
def max_attempts : Nat := 60

/-- Lines 45-100, `call_flux_api`: submit the request; a non-2xx response
becomes the "API Error" result (parsed body if available, else the raw
exception text); a 2xx body without `id` is the hard
"No request ID in response" failure before any polling; otherwise the poll
loop runs with 60 attempts. -/
def call_flux_api (env : Env) : ApiResult :=
  match env.submit with
  | SubmitOutcome.httpError detail raw =>
      ⟨none, some ("API Error: " ++ detail.getD raw), ⟨1, 0, 0, []⟩⟩
  | SubmitOutcome.exn m =>
      ⟨none, some ("Unexpected error: " ++ m), ⟨1, 0, 0, []⟩⟩
  | SubmitOutcome.ok body =>
      match body.id with
      | none => ⟨none, some "No request ID in response", ⟨1, 0, 0, []⟩⟩
      | some _ => pollLoop env max_attempts 0 ⟨1, 0, 0, []⟩

/-- Lines 186-195: derive (width, height) from the aspect-ratio selection.
The final `else` of the source is the "Tall (9:16)" branch. -/
def aspectDims (aspect_ratio : String) : Nat × Nat :=
  if aspect_ratio = "Square (1:1)" then (1024, 1024)
  else if aspect_ratio = "Portrait (3:4)" then (768, 1024)
  else if aspect_ratio = "Landscape (4:3)" then (1024, 768)
  else if aspect_ratio = "Wide (16:9)" then (1024, 576)
  else (576, 1024)

/-- Outcome of the generate-button handler (lines 199-214): either the
validation error shown for an empty prompt, or the result of the
`call_flux_api` invocation. -/
inductive UIOutcome where
  | validationError (msg : String)
  | generated (r : ApiResult)
deriving DecidableEq

/-- Lines 199-214: the generate-button handler — `if not prompt:` shows the
validation error; otherwise `call_flux_api` is invoked. -/
def generateAction (env : Env) (prompt : String) : UIOutcome :=
  if prompt = "" then UIOutcome.validationError "Please enter a prompt first!"
  else UIOutcome.generated (call_flux_api env)

/-- Total number of network calls recorded in a trace. -/
def totalCalls (tr : Trace) : Nat :=
  tr.submits + tr.polls + tr.fetched.length

/-- Network calls issued by one press of the generate button. -/
def uiNetworkCalls : UIOutcome → Nat
  | UIOutcome.validationError _ => 0
  | UIOutcome.generated r => totalCalls r.trace

/-- A poll response is still-pending when its status is neither `Ready`
nor `Failed`. -/
def pending (p : PollResponse) : Prop :=
  p.status ≠ "Ready" ∧ p.status ≠ "Failed"

/-- Unfolding one still-pending iteration of the poll loop. -/
lemma pollLoop_pending_step (env : Env) (fuel attempt : Nat) (tr : Trace)
    (p : PollResponse) (hp : env.polls attempt = PollOutcome.ok p)
    (hpend : pending p) :
    pollLoop env (fuel + 1) attempt tr =
      pollLoop env fuel (attempt + 1)
        { tr with sleeps := tr.sleeps + 1, polls := tr.polls + 1 } := by
  obtain ⟨h1, h2⟩ := hpend
  simp [pollLoop, hp, h1, h2]

/-- Skipping `j` consecutive still-pending attempts advances the attempt
index and adds `j` to both the sleep and the poll counters. -/
lemma pollLoop_pending_skip (env : Env) :
    ∀ (j fuel attempt : Nat) (tr : Trace),
    (∀ i, i < j → ∃ p, env.polls (attempt + i) = PollOutcome.ok p ∧ pending p) →
    pollLoop env (j + fuel) attempt tr =
      pollLoop env fuel (attempt + j)
        { tr with sleeps := tr.sleeps + j, polls := tr.polls + j } := by
  intro j
  induction j with
  | zero => intro fuel attempt tr _; simp
  | succ j ih =>
      intro fuel attempt tr h
      obtain ⟨p, hp, hpend⟩ := h 0 (Nat.succ_pos j)
      rw [Nat.add_zero] at hp
      have hstep := pollLoop_pending_step env (j + fuel) attempt tr p hp hpend
      rw [Nat.succ_add, ← Nat.add_one, hstep]
      rw [ih fuel (attempt + 1) _ (fun i hi => by
        obtain ⟨q, hq, hqpend⟩ := h (i + 1) (by omega)
        exact ⟨q, by rw [show attempt + 1 + i = attempt + (i + 1) by omega]; exact hq, hqpend⟩)]
      have h1 : attempt + 1 + j = attempt + (j + 1) := by omega
      have h2 : tr.sleeps + 1 + j = tr.sleeps + (j + 1) := by omega
      have h3 : tr.polls + 1 + j = tr.polls + (j + 1) := by omega
      rw [h1, h2, h3]

/-- C4: the aspect-ratio selection is a pure function mapping each of the
five labeled presets to its fixed (width, height) pair, and no input ever
produces a pair outside the five. -/
theorem aspectDims_spec :
    aspectDims "Square (1:1)" = (1024, 1024) ∧
    aspectDims "Portrait (3:4)" = (768, 1024) ∧
    aspectDims "Landscape (4:3)" = (1024, 768) ∧
    aspectDims "Wide (16:9)" = (1024, 576) ∧
    aspectDims "Tall (9:16)" = (576, 1024) ∧
    ∀ s : String,
      aspectDims s = (1024, 1024) ∨ aspectDims s = (768, 1024) ∨
      aspectDims s = (1024, 768) ∨ aspectDims s = (1024, 576) ∨
      aspectDims s = (576, 1024) := by
  refine ⟨by decide, by decide, by decide, by decide, by decide, ?_⟩
  intro s
  unfold aspectDims
  split_ifs <;> simp

/-- C7: pressing generate with an empty prompt yields the validation error
and issues no network call, whatever the external world would answer. -/
theorem generate_empty_prompt (env : Env) :
    generateAction env "" = UIOutcome.validationError "Please enter a prompt first!" ∧
    uiNetworkCalls (generateAction env "") = 0 := by
  constructor
  · simp [generateAction]
  · simp [generateAction, uiNetworkCalls]

/-- C3: a 2xx submission response whose body lacks an `id` field yields the
"No request ID in response" error with zero poll calls (and zero sleeps and
fetches). -/
theorem no_request_id (env : Env)
    (h : env.submit = SubmitOutcome.ok ⟨none⟩) :
    call_flux_api env = ⟨none, some "No request ID in response", ⟨1, 0, 0, []⟩⟩ := by
  simp [call_flux_api, h]

/-- Concrete environment for the C3 witness: the service answers 2xx with a
body lacking `id`. -/
def envNoId : Env :=
  ⟨SubmitOutcome.ok ⟨none⟩, fun _ => PollOutcome.exn "unused",
   fun _ => FetchResult.decodeFail "unused"⟩

/-- Witness for C3 at a concrete environment. -/
theorem no_request_id_witness :
    call_flux_api envNoId = ⟨none, some "No request ID in response", ⟨1, 0, 0, []⟩⟩ :=
  no_request_id envNoId rfl

/-- C8: a non-2xx submission response yields the "API Error" result built
from the parsed JSON error body when it parses (`detail = some d`), else
from the raw error text; the trace records zero poll calls. -/
theorem submit_http_error (env : Env) (detail : Option String) (raw : String)
    (h : env.submit = SubmitOutcome.httpError detail raw) :
    call_flux_api env =
      ⟨none, some ("API Error: " ++ detail.getD raw), ⟨1, 0, 0, []⟩⟩ := by
  simp [call_flux_api, h]

/-- Concrete environment for the C8 witness: the submission fails with a
non-2xx response whose body parses to a structured detail. -/
def envHttpErr : Env :=
  ⟨SubmitOutcome.httpError (some "invalid key") "422 Client Error",
   fun _ => PollOutcome.exn "unused", fun _ => FetchResult.decodeFail "unused"⟩

/-- Witness for C8 at a concrete environment. -/
theorem submit_http_error_witness :
    call_flux_api envHttpErr =
      ⟨none, some "API Error: invalid key", ⟨1, 0, 0, []⟩⟩ :=
  submit_http_error envHttpErr (some "invalid key") "422 Client Error" rfl

/-- Unfolding one iteration of the poll loop whose attempt returns a
decoded body. -/
lemma pollLoop_step_ok (env : Env) (fuel attempt : Nat) (tr : Trace)
    (p : PollResponse) (hp : env.polls attempt = PollOutcome.ok p) :
    pollLoop env (fuel + 1) attempt tr =
      (if p.status = "Ready" then
        processReady env p { tr with sleeps := tr.sleeps + 1, polls := tr.polls + 1 }
       else if p.status = "Failed" then
        ⟨none, some ("Generation failed: " ++ p.error.getD "Unknown error"),
         { tr with sleeps := tr.sleeps + 1, polls := tr.polls + 1 }⟩
       else pollLoop env fuel (attempt + 1)
         { tr with sleeps := tr.sleeps + 1, polls := tr.polls + 1 }) := by
  simp [pollLoop, hp]

/-- If the submission succeeds with an id and the first `k ≤ 60` attempts
are all still-pending, the invocation is the remaining poll loop started at
attempt `k` with `k` polls and `k` sleeps already recorded. -/
lemma call_reaches_attempt (env : Env) (rid : String) (k : Nat) (hk : k ≤ 60)
    (hs : env.submit = SubmitOutcome.ok ⟨some rid⟩)
    (hpend : ∀ i, i < k → ∃ q, env.polls i = PollOutcome.ok q ∧ pending q) :
    call_flux_api env = pollLoop env (60 - k) k ⟨1, k, k, []⟩ := by
  simp only [call_flux_api, hs]
  have hmax : max_attempts = k + (60 - k) := by unfold max_attempts; omega
  rw [hmax]
  rw [pollLoop_pending_skip env k (60 - k) 0 ⟨1, 0, 0, []⟩
    (fun i hi => by simpa using hpend i hi)]
  simp

/-- C2: if no status response within the 60 attempts is `Ready` or
`Failed`, the invocation makes exactly 60 poll calls (and 60 sleeps) and
returns the fixed "Image generation timed out" error. -/
theorem poll_timeout (env : Env) (rid : String)
    (hs : env.submit = SubmitOutcome.ok ⟨some rid⟩)
    (hp : ∀ i, i < 60 → ∃ p, env.polls i = PollOutcome.ok p ∧ pending p) :
    call_flux_api env =
      ⟨none, some "Image generation timed out", ⟨1, 60, 60, []⟩⟩ := by
  rw [call_reaches_attempt env rid 60 (le_refl 60) hs hp]
  rfl

/-- Concrete environment for the C2 witness: every poll answers `Pending`. -/
def envTimeout : Env :=
  ⟨SubmitOutcome.ok ⟨some "job-1"⟩,
   fun _ => PollOutcome.ok ⟨"Pending", none, none⟩,
   fun _ => FetchResult.decodeFail "unused"⟩

/-- Witness for C2 at a concrete environment. -/
theorem poll_timeout_witness :
    call_flux_api envTimeout =
      ⟨none, some "Image generation timed out", ⟨1, 60, 60, []⟩⟩ :=
  poll_timeout envTimeout "job-1" rfl
    (fun _ _ => ⟨⟨"Pending", none, none⟩, rfl, by decide, by decide⟩)

/-- If the submission succeeds with an id, attempts `0..k-1` are
still-pending and attempt `k < 60` returns a decoded body `p`, the
invocation reduces to the three-way dispatch on `p.status` with `k + 1`
polls and sleeps recorded. -/
lemma call_terminal_attempt (env : Env) (rid : String) (k : Nat)
    (p : PollResponse) (hk : k < 60)
    (hs : env.submit = SubmitOutcome.ok ⟨some rid⟩)
    (hpend : ∀ i, i < k → ∃ q, env.polls i = PollOutcome.ok q ∧ pending q)
    (hp : env.polls k = PollOutcome.ok p) :
    call_flux_api env =
      (if p.status = "Ready" then processReady env p ⟨1, k + 1, k + 1, []⟩
       else if p.status = "Failed" then
        ⟨none, some ("Generation failed: " ++ p.error.getD "Unknown error"),
         ⟨1, k + 1, k + 1, []⟩⟩
       else pollLoop env (59 - k) (k + 1) ⟨1, k + 1, k + 1, []⟩) := by
  rw [call_reaches_attempt env rid k (by omega) hs hpend]
  rw [show 60 - k = (59 - k) + 1 by omega]
  rw [pollLoop_step_ok env (59 - k) k ⟨1, k, k, []⟩ p hp]

/-- C1 (amended): if attempt `k + 1` (1-based) is the first non-pending
poll, answers `Ready` with a singular `sample` URL (whatever `samples`
holds), and the URL fetch decodes to `img`, the invocation fetches exactly
that URL, returns `img` with no error, and has slept `k + 1` times — one
0.5-time-unit sleep before every poll including the first, i.e. an elapsed
wait of (k+1)×0.5 time-units, not k×0.5. -/
theorem ready_sample_success (env : Env) (rid url : String) (img : Image)
    (k : Nat) (p : PollResponse) (rp : ResultPayload)
    (hk : k < 60)
    (hs : env.submit = SubmitOutcome.ok ⟨some rid⟩)
    (hpend : ∀ i, i < k → ∃ q, env.polls i = PollOutcome.ok q ∧ pending q)
    (hp : env.polls k = PollOutcome.ok p)
    (hstatus : p.status = "Ready")
    (hres : p.result = some rp)
    (hsample : rp.sample = some url)
    (hfetch : env.fetch url = FetchResult.ok img) :
    call_flux_api env = ⟨some img, none, ⟨1, k + 1, k + 1, [url]⟩⟩ := by
  rw [call_terminal_attempt env rid k p hk hs hpend hp, hstatus]
  simp [processReady, extractUrl, hres, hsample, hfetch]

/-- Concrete environment for the C1 counterexample and witness: the first
poll already answers `Ready` with a `sample` URL (and a decoy `samples`
list), and the fetch decodes. -/
def envReady1 : Env :=
  ⟨SubmitOutcome.ok ⟨some "job-2"⟩,
   fun _ => PollOutcome.ok
     ⟨"Ready", some ⟨some "https://img/a.png", some ["https://img/decoy.png"]⟩, none⟩,
   fun u => if u = "https://img/a.png" then FetchResult.ok ⟨[7, 7]⟩
            else FetchResult.decodeFail "wrong url"⟩

/-- Counterexample for C1 as stated: with `Ready` on attempt k = 1, the
claim predicts an elapsed wait of (k−1)×0.5 = 0 time-units, but the code
sleeps before every poll including the first, so one 0.5-time-unit sleep
has elapsed before the `Ready` poll. -/
theorem ready_wait_counterexample :
    (call_flux_api envReady1).image = some ⟨[7, 7]⟩ ∧
    (call_flux_api envReady1).trace.polls = 1 ∧
    ¬ (call_flux_api envReady1).trace.sleeps = 1 - 1 := by
  refine ⟨rfl, rfl, by decide⟩

/-- Witness for the amended C1 at a concrete environment: `Ready` on the
first attempt (`k = 0`), the `sample` URL is fetched (not the `samples`
entry), and one sleep has elapsed. -/
theorem ready_sample_success_witness :
    call_flux_api envReady1 =
      ⟨some ⟨[7, 7]⟩, none, ⟨1, 1, 1, ["https://img/a.png"]⟩⟩ :=
  ready_sample_success envReady1 "job-2" "https://img/a.png" ⟨[7, 7]⟩ 0
    ⟨"Ready", some ⟨some "https://img/a.png", some ["https://img/decoy.png"]⟩, none⟩
    ⟨some "https://img/a.png", some ["https://img/decoy.png"]⟩
    (by omega) rfl (fun i hi => absurd hi (Nat.not_lt_zero i)) rfl rfl rfl rfl rfl

/-- C5: if attempt `k` answers `Ready` with a result payload carrying
neither `sample` nor `samples`, the invocation returns no image and an
error embedding the raised exception text and the dump of the full status
payload. -/
theorem ready_missing_url_error (env : Env) (rid : String)
    (k : Nat) (p : PollResponse) (rp : ResultPayload)
    (hk : k < 60)
    (hs : env.submit = SubmitOutcome.ok ⟨some rid⟩)
    (hpend : ∀ i, i < k → ∃ q, env.polls i = PollOutcome.ok q ∧ pending q)
    (hp : env.polls k = PollOutcome.ok p)
    (hstatus : p.status = "Ready")
    (hres : p.result = some rp)
    (hsample : rp.sample = none)
    (hsamples : rp.samples = none) :
    call_flux_api env =
      ⟨none,
       some ("Error processing API response: KeyError: samples\nResponse: " ++ pollDump p),
       ⟨1, k + 1, k + 1, []⟩⟩ := by
  rw [call_terminal_attempt env rid k p hk hs hpend hp, hstatus]
  simp [processReady, extractUrl, hres, hsample, hsamples]

/-- Concrete environment for the C5 witness: the first poll answers
`Ready` with an empty result payload. -/
def envReadyEmpty : Env :=
  ⟨SubmitOutcome.ok ⟨some "job-3"⟩,
   fun _ => PollOutcome.ok ⟨"Ready", some ⟨none, none⟩, none⟩,
   fun _ => FetchResult.decodeFail "unused"⟩

/-- Witness for C5 at a concrete environment. -/
theorem ready_missing_url_error_witness :
    call_flux_api envReadyEmpty =
      ⟨none,
       some ("Error processing API response: KeyError: samples\nResponse: " ++
         pollDump ⟨"Ready", some ⟨none, none⟩, none⟩),
       ⟨1, 1, 1, []⟩⟩ :=
  ready_missing_url_error envReadyEmpty "job-3" 0
    ⟨"Ready", some ⟨none, none⟩, none⟩ ⟨none, none⟩
    (by omega) rfl (fun i hi => absurd hi (Nat.not_lt_zero i)) rfl rfl rfl rfl rfl

/-- C6: if attempt `k` answers `Failed`, the invocation terminates at that
poll (exactly `k + 1` poll calls) with the message built from the `error`
field when present, or the generic "Unknown error" text when absent —
both cases captured by `Option.getD`. -/
theorem failed_status (env : Env) (rid : String)
    (k : Nat) (p : PollResponse)
    (hk : k < 60)
    (hs : env.submit = SubmitOutcome.ok ⟨some rid⟩)
    (hpend : ∀ i, i < k → ∃ q, env.polls i = PollOutcome.ok q ∧ pending q)
    (hp : env.polls k = PollOutcome.ok p)
    (hstatus : p.status = "Failed") :
    call_flux_api env =
      ⟨none, some ("Generation failed: " ++ p.error.getD "Unknown error"),
       ⟨1, k + 1, k + 1, []⟩⟩ := by
  rw [call_terminal_attempt env rid k p hk hs hpend hp, hstatus]
  simp

/-- Concrete environment for the C6 witness: one pending poll, then
`Failed` with the error field "bad prompt". -/
def envFailed : Env :=
  ⟨SubmitOutcome.ok ⟨some "job-4"⟩,
   fun i => if i = 0 then PollOutcome.ok ⟨"Pending", none, none⟩
            else PollOutcome.ok ⟨"Failed", none, some "bad prompt"⟩,
   fun _ => FetchResult.decodeFail "unused"⟩

/-- Witness for C6 at a concrete environment: `Failed` on the second
attempt carrying "bad prompt"; the message contains that text and polling
stops after two calls. -/
theorem failed_status_witness :
    call_flux_api envFailed =
      ⟨none, some "Generation failed: bad prompt", ⟨1, 2, 2, []⟩⟩ :=
  failed_status envFailed "job-4" 1 ⟨"Failed", none, some "bad prompt"⟩
    (by omega) rfl
    (fun i hi => ⟨⟨"Pending", none, none⟩,
      by interval_cases i; rfl, by decide, by decide⟩)
    rfl rfl

/-- C10: if attempt `k` answers `Ready` with a `sample` URL whose GET
returns a non-2xx status, the `raise_for_status` of the image fetch is
caught by the `Ready`-branch handler, so the invocation returns the
result-processing error embedding the status payload — not the
transport-level "API Error" form. -/
theorem ready_fetch_http_error (env : Env) (rid url m : String)
    (k : Nat) (p : PollResponse) (rp : ResultPayload)
    (hk : k < 60)
    (hs : env.submit = SubmitOutcome.ok ⟨some rid⟩)
    (hpend : ∀ i, i < k → ∃ q, env.polls i = PollOutcome.ok q ∧ pending q)
    (hp : env.polls k = PollOutcome.ok p)
    (hstatus : p.status = "Ready")
    (hres : p.result = some rp)
    (hsample : rp.sample = some url)
    (hfetch : env.fetch url = FetchResult.httpError m) :
    call_flux_api env =
      ⟨none,
       some ("Error processing API response: " ++ m ++ "\nResponse: " ++ pollDump p),
       ⟨1, k + 1, k + 1, [url]⟩⟩ := by
  rw [call_terminal_attempt env rid k p hk hs hpend hp, hstatus]
  simp [processReady, extractUrl, hres, hsample, hfetch]

/-- Concrete environment for the C10 witness: `Ready` on the first
attempt, but the image URL answers 404. -/
def envFetch404 : Env :=
  ⟨SubmitOutcome.ok ⟨some "job-5"⟩,
   fun _ => PollOutcome.ok ⟨"Ready", some ⟨some "https://img/b.png", none⟩, none⟩,
   fun _ => FetchResult.httpError "404 Client Error"⟩

/-- Witness for C10 at a concrete environment. -/
theorem ready_fetch_http_error_witness :
    call_flux_api envFetch404 =
      ⟨none,
       some ("Error processing API response: 404 Client Error\nResponse: " ++
         pollDump ⟨"Ready", some ⟨some "https://img/b.png", none⟩, none⟩),
       ⟨1, 1, 1, ["https://img/b.png"]⟩⟩ :=
  ready_fetch_http_error envFetch404 "job-5" "https://img/b.png" "404 Client Error" 0
    ⟨"Ready", some ⟨some "https://img/b.png", none⟩, none⟩
    ⟨some "https://img/b.png", none⟩
    (by omega) rfl (fun i hi => absurd hi (Nat.not_lt_zero i)) rfl rfl rfl rfl rfl

/-- Mutual exclusivity of the two components of an `ApiResult`: exactly
one side of the returned pair is populated. -/
def exclusiveResult (r : ApiResult) : Prop :=
  ((∃ img, r.image = some img) ∧ r.error = none) ∨
  (r.image = none ∧ ∃ m, r.error = some m)

/-- The `Ready` branch always yields an exclusive result. -/
lemma processReady_exclusiveResult (env : Env) (p : PollResponse) (tr : Trace) :
    exclusiveResult (processReady env p tr) := by
  unfold processReady exclusiveResult
  cases hext : extractUrl p with
  | error e => simp
  | ok url => cases hfetch : env.fetch url <;> simp [hfetch]

/-- The poll loop always yields an exclusive result, whatever the
environment answers. -/
lemma pollLoop_exclusiveResult (env : Env) :
    ∀ (fuel attempt : Nat) (tr : Trace),
      exclusiveResult (pollLoop env fuel attempt tr) := by
  intro fuel
  induction fuel with
  | zero => intro _ tr; simp [pollLoop, exclusiveResult]
  | succ fuel ih =>
      intro attempt tr
      rw [pollLoop]
      cases env.polls attempt with
      | exn m => simp [exclusiveResult]
      | ok p =>
          by_cases h1 : p.status = "Ready"
          · simpa [h1] using processReady_exclusiveResult env p _
          · by_cases h2 : p.status = "Failed"
            · simp [h1, h2, exclusiveResult]
            · simpa [h1, h2] using ih (attempt + 1) _

/-- C9: for every environment — every submission outcome, every poll
sequence, every fetch behaviour — the invocation returns exactly one of
the two outcomes: an image with no error message, or an error message with
no image; never both, never neither. -/
theorem call_flux_api_exclusive (env : Env) :
    ((∃ img, (call_flux_api env).image = some img) ∧
      (call_flux_api env).error = none) ∨
    ((call_flux_api env).image = none ∧
      ∃ m, (call_flux_api env).error = some m) := by
  have h : exclusiveResult (call_flux_api env) := by
    cases hsub : env.submit with
    | httpError detail raw => simp [call_flux_api, hsub, exclusiveResult]
    | exn m => simp [call_flux_api, hsub, exclusiveResult]
    | ok body =>
        cases hid : body.id with
        | none => simp [call_flux_api, hsub, hid, exclusiveResult]
        | some rid =>
            have heq : call_flux_api env =
                pollLoop env max_attempts 0 ⟨1, 0, 0, []⟩ := by
              simp [call_flux_api, hsub, hid]
            rw [heq]
            exact pollLoop_exclusiveResult env max_attempts 0 _
  exact h
